import Mathlib

/-!
Verification of `protonvpn/services/certificate_manager.py`
(class `CertificateManager`).

The Python module is embedded shallowly: dynamically typed arguments become
the inductive `PyVal`; raised exceptions become the inductive `PyExc`
threaded through `Except`; the mutable world (filesystem, inherited
connection state, crash-report sink) becomes the explicit record `SysState`
passed and returned by every operation.  The jinja2 template engine is an
external collaborator and is modelled as a capability record.
-/

set_option linter.constructorNameAsVariable false

namespace CertManager

/-- A Python runtime value, restricted to the shapes this module inspects:
`isinstance(x, str)`, `isinstance(x, Session)`, `isinstance(x, list)`,
booleans returned by the stub generators, `None` returned by the swallowed
error path, and other objects (ints stand in for arbitrary non-matching
objects). -/
inductive PyVal where
  | str (s : String)
  | list (xs : List PyVal)
  | session
  | bool (b : Bool)
  | int (n : Int)
  | none

/-- `isinstance(v, str)`. -/
def PyVal.isStr : PyVal → Bool
  | .str _ => true
  | _ => false

/-- `isinstance(v, Session)`; `proton.api.Session` is outside this
repository, so an instance of it is the opaque constructor `session`. -/
def PyVal.isSession : PyVal → Bool
  | .session => true
  | _ => false

/-- `isinstance(v, list)`. -/
def PyVal.isList : PyVal → Bool
  | .list _ => true
  | _ => false

/-- `len(v)` for a list value; 0 on other shapes (the code only applies it
after the `isinstance(ip_list, list)` check has passed). -/
def PyVal.listLen : PyVal → Nat
  | .list xs => xs.length
  | _ => 0

/-- The string payload of a `str` value; "" on other shapes (the code only
reads it after the corresponding `isinstance` check has passed). -/
def PyVal.getStr : PyVal → String
  | .str s => s
  | _ => ""

/-- Rendering of Python `type(v)` used in the validator error messages. -/
def PyVal.typeName : PyVal → String
  | .str _ => "str"
  | .list _ => "list"
  | .session => "Session"
  | .bool _ => "bool"
  | .int _ => "int"
  | .none => "NoneType"

/-- Modelled from the spec: `ProtocolEnum` lives in the repository module
`protonvpn/enums.py`, which is not under `src/`.  §3 of the spec makes
`Protocol` the closed enumeration {TCP, UDP, IKEV2, WIREGUARD} whose values
are the textual protocol identifiers that pass the validator type check
(`isinstance(protocol, str)`) and key the dispatch table. -/
def ProtocolEnum.TCP : String := "tcp"

/-- Modelled from the spec: see `ProtocolEnum.TCP`. -/
def ProtocolEnum.UDP : String := "udp"

/-- Modelled from the spec: see `ProtocolEnum.TCP`. -/
def ProtocolEnum.IKEV2 : String := "ikev2"

/-- Modelled from the spec: see `ProtocolEnum.TCP`. -/
def ProtocolEnum.WIREGUARD : String := "wireguard"

/-- Modelled from the spec: `ProtocolPortEnum` lives in the missing
`protonvpn/enums.py`; §3 defines it as the enumeration mapping
{TCP→tcp-port-value, UDP→udp-port-value}, used only for OpenVPN
rendering.  The port values themselves are opaque, so the enumeration is a
two-constructor inductive. -/
inductive ProtocolPortEnum where
  | TCP
  | UDP
  deriving DecidableEq, Repr

/-- Modelled from the spec: configuration constants from the missing
`protonvpn/constants.py`; §6 treats the default cache path as injected
configuration, not behaviour to reproduce. -/
def CACHED_OPENVPN_CERTIFICATE : String := "ProtonVPN.ovpn"

/-- Modelled from the spec: the named OpenVPN template constant from the
missing `protonvpn/constants.py`. -/
def OPENVPN_TEMPLATE : String := "openvpn_template.j2"

/-- Modelled from the spec: the cache directory constant from the missing
`protonvpn/constants.py`. -/
def PROTON_XDG_CACHE_HOME : String := "cache/protonvpn"

/-- Modelled from the spec: the template directory constant from the
missing `protonvpn/constants.py`. -/
def TEMPLATES : String := "templates"

/-- A raised Python exception, by kind and payload.
`illegalVPNProtocol` is modelled from the spec: `exceptions.py` is not
under `src/`; §4.3 describes it as "a domain-specific unsupported-protocol
error that wraps the original lookup failure", so it carries the wrapped
exception.  `jinja2.exceptions.TemplateNotFound` carries the template name
(which is also its `str()`), all other kinds carry their message. -/
inductive PyExc where
  | typeError (msg : String)
  | valueError (msg : String)
  | keyError (key : String)
  | templateNotFound (name : String)
  | illegalVPNProtocol (wrapped : PyExc)
  | filesystemError (msg : String)
  | other (msg : String)
  deriving DecidableEq, Repr

/-- `isinstance(e, KeyError)`. -/
def PyExc.isKeyError : PyExc → Bool
  | .keyError _ => true
  | _ => false

/-- `isinstance(e, jinja2.exceptions.TemplateNotFound)`. -/
def PyExc.isTemplateNotFound : PyExc → Bool
  | .templateNotFound _ => true
  | _ => false

/-- The variable set handed to `template.render` in
`generate_openvpn_cert`:
`{"openvpn_protocol": protocol, "serverlist": ip_list,
  "openvpn_ports": [ports[protocol]]}`. -/
structure J2Values where
  openvpn_protocol : String
  serverlist : PyVal
  openvpn_ports : List ProtocolPortEnum

/-- The jinja2 engine `Environment(loader=FileSystemLoader(TEMPLATES))`,
an external collaborator (spec §1): `get_template(name)` yields a template
or raises `TemplateNotFound`, and a template renders a variable set to
text or raises.  A template is its render function. -/
structure TemplateEngine where
  get_template : String → Except PyExc (J2Values → Except PyExc String)

/-- The filesystem visible to this module: the set of directories and a
map from file path to content. -/
structure FileSystem where
  dirs : List String
  files : List (String × String)
  deriving DecidableEq, Repr

/-- `os.path.isdir(p)`. -/
def FileSystem.isdir (fs : FileSystem) (p : String) : Bool :=
  fs.dirs.contains p

/-- `os.mkdir(p)` on the success path (the code only calls it after
`os.path.isdir` returned false). -/
def FileSystem.mkdir (fs : FileSystem) (p : String) : FileSystem :=
  { fs with dirs := p :: fs.dirs }

/-- `os.path.isfile(p)` / existence of a regular file. -/
def FileSystem.isfile (fs : FileSystem) (p : String) : Bool :=
  (fs.files.lookup p).isSome

/-- Content of the file at `p`, when it exists. -/
def FileSystem.read (fs : FileSystem) (p : String) : Option String :=
  fs.files.lookup p

/-- `open(p, "w")` followed by writing `content`: creates or truncates the
file at `p` and leaves it holding exactly `content`. -/
def FileSystem.write (fs : FileSystem) (p content : String) : FileSystem :=
  { fs with files := (p, content) :: fs.files.filter (fun kv => kv.1 ≠ p) }

/-- `os.remove(p)`: deletes the file at `p`, or raises a filesystem error
(`FileNotFoundError` / `OSError`) when `p` does not exist as a file.  No
existence check happens before the removal attempt; the error is the
report of the attempt itself. -/
def FileSystem.remove (fs : FileSystem) (p : String) :
    Except PyExc FileSystem :=
  if fs.isfile p then
    .ok { fs with files := fs.files.filter (fun kv => kv.1 ≠ p) }
  else
    .error (.filesystemError ("No such file or directory: " ++ p))

/-- Modelled from the spec: `ConnectionState` of §3, the mutable record
{lastServerName, lastProtocol} owned by the State Recorder
(`ConnectionStateManager`, whose module is not under `src/`). -/
structure ConnectionState where
  lastServerName : Option String
  lastProtocol : Option String
  deriving DecidableEq, Repr

/-- The world threaded through every operation: the filesystem, the
inherited connection state, and the crash-report sink's received errors
(most recent first). -/
structure SysState where
  fs : FileSystem
  conn : ConnectionState
  crashReports : List PyExc
  deriving DecidableEq, Repr

/-- Modelled from the spec: `self.save_servername(name)` from the missing
`connection_state_manager.py`; §4.2 makes it an unconditional write of the
last-used server name into `ConnectionState`. -/
def save_servername (st : SysState) (name : String) : SysState :=
  { st with conn := { st.conn with lastServerName := some name } }

/-- Modelled from the spec: `self.save_protocol(protocol)` from the missing
`connection_state_manager.py`; §4.2 makes it an unconditional write of the
last-used protocol into `ConnectionState`. -/
def save_protocol (st : SysState) (protocol : String) : SysState :=
  { st with conn := { st.conn with lastProtocol := some protocol } }

/-- Modelled from the spec: `capture_exception` from the missing
`protonvpn/services/__init__.py`; §1 makes the crash-report sink the
capability "report(error) → side effect, no return value". -/
def capture_exception (st : SysState) (e : PyExc) : SysState :=
  { st with crashReports := e :: st.crashReports }

/-- The `ports` lookup `ports[protocol]` of `generate_openvpn_cert`, where
`ports = {ProtocolEnum.TCP: ProtocolPortEnum.TCP,
          ProtocolEnum.UDP: ProtocolPortEnum.UDP}`;
a missing key raises `KeyError(protocol)`. -/
def ports_lookup (protocol : String) : Except PyExc ProtocolPortEnum :=
  if protocol = ProtocolEnum.TCP then .ok ProtocolPortEnum.TCP
  else if protocol = ProtocolEnum.UDP then .ok ProtocolPortEnum.UDP
  else .error (.keyError protocol)

/-- `CertificateManager.generate_openvpn_cert(self, servername, ip_list,
cached_cert, protocol)`:
build the jinja variable set (evaluating `ports[protocol]`), fetch the
template (may raise `TemplateNotFound`), ensure the cache directory
exists, open the cache path for writing (truncating it) and write the
rendered text, then return the cache path.  `servername` is received and
ignored, matching the source. -/
def generate_openvpn_cert (engine : TemplateEngine) (st : SysState)
    (_servername ip_list : PyVal) (cached_cert : String)
    (protocol : String) : SysState × Except PyExc PyVal :=
  match ports_lookup protocol with
  | .error e => (st, .error e)
  | .ok port =>
    let j2_values : J2Values :=
      { openvpn_protocol := protocol
        serverlist := ip_list
        openvpn_ports := [port] }
    match engine.get_template OPENVPN_TEMPLATE with
    | .error e => (st, .error e)
    | .ok template =>
      let st :=
        if st.fs.isdir PROTON_XDG_CACHE_HOME then st
        else { st with fs := st.fs.mkdir PROTON_XDG_CACHE_HOME }
      -- `open(cached_cert, "w")` truncates before `template.render` runs
      let st := { st with fs := st.fs.write cached_cert "" }
      match template j2_values with
      | .error e => (st, .error e)
      | .ok text =>
        ({ st with fs := st.fs.write cached_cert text },
         .ok (.str cached_cert))

/-- `CertificateManager.generate_strongswan_cert(self, servername, ip_list,
cached_cert, _=None)`: a stub that touches nothing and returns `True`. -/
def generate_strongswan_cert (st : SysState)
    (_servername _ip_list : PyVal) (_cached_cert : String) :
    SysState × Except PyExc PyVal :=
  (st, .ok (.bool true))

/-- `CertificateManager.generate_wireguard_cert(self, servername, ip_list,
cached_cert, _=None)`: a stub that touches nothing and returns `True`. -/
def generate_wireguard_cert (st : SysState)
    (_servername _ip_list : PyVal) (_cached_cert : String) :
    SysState × Except PyExc PyVal :=
  (st, .ok (.bool true))

/-- The body of the `try` block of `generate_vpn_cert`:
`protocol_dict[protocol](servername, ip_list, cached_cert, protocol)`,
where `protocol_dict = {ProtocolEnum.TCP: generate_openvpn_cert,
ProtocolEnum.UDP: generate_openvpn_cert, ProtocolEnum.IKEV2:
generate_strongswan_cert, ProtocolEnum.WIREGUARD:
generate_wireguard_cert}`; a key miss raises `KeyError(protocol)`. -/
def dispatch (engine : TemplateEngine) (st : SysState)
    (protocol : String) (servername ip_list : PyVal)
    (cached_cert : String) : SysState × Except PyExc PyVal :=
  if protocol = ProtocolEnum.TCP ∨ protocol = ProtocolEnum.UDP then
    generate_openvpn_cert engine st servername ip_list cached_cert protocol
  else if protocol = ProtocolEnum.IKEV2 then
    generate_strongswan_cert st servername ip_list cached_cert
  else if protocol = ProtocolEnum.WIREGUARD then
    generate_wireguard_cert st servername ip_list cached_cert
  else
    (st, .error (.keyError protocol))

/-- The validator error message
`"Incorrect object type, str is expected but got {} instead".format(type(v))`. -/
def strTypeErrMsg (v : PyVal) : String :=
  "Incorrect object type, str is expected but got " ++ v.typeName
    ++ " instead"

/-- The validator error message of the session check; the source formats
`type(Session)` (the metaclass of the class object, i.e. `type`) and —
as written in the source — `type(protocol)`, not `type(session)`. -/
def sessionTypeErrMsg (protocol : PyVal) : String :=
  "Incorrect object type, type is expected but got " ++ protocol.typeName
    ++ " instead"

/-- The validator error message
`"Incorrect object type, list is expected but got {} instead".format(type(v))`. -/
def listTypeErrMsg (v : PyVal) : String :=
  "Incorrect object type, list is expected but got " ++ v.typeName
    ++ " instead"

/-- `CertificateManager.generate_vpn_cert(self, protocol, session,
servername, ip_list, cached_cert=CACHED_OPENVPN_CERTIFICATE)`:
five validation checks in source order, each raising on failure; then the
unconditional `save_servername` / `save_protocol`; then the dispatch
guarded by `except KeyError` (re-raised as `IllegalVPNProtocol` wrapping
it), `except TemplateNotFound` (re-raised as a `TemplateNotFound` built
from the caught one, whose `str()` is the same template name), and
`except Exception` (sent to `capture_exception`, after which the function
falls through and returns `None`). -/
def generate_vpn_cert (engine : TemplateEngine) (st : SysState)
    (protocol session servername ip_list : PyVal)
    (cached_cert : String := CACHED_OPENVPN_CERTIFICATE) :
    SysState × Except PyExc PyVal :=
  if ¬ protocol.isStr then
    (st, .error (.typeError (strTypeErrMsg protocol)))
  else if ¬ session.isSession then
    (st, .error (.typeError (sessionTypeErrMsg protocol)))
  else if ¬ servername.isStr then
    (st, .error (.typeError (strTypeErrMsg servername)))
  else if ¬ ip_list.isList then
    (st, .error (.typeError (listTypeErrMsg ip_list)))
  else if ip_list.listLen = 0 then
    (st, .error (.valueError "No servers were provided"))
  else
    let st := save_servername st servername.getStr
    let st := save_protocol st protocol.getStr
    match dispatch engine st protocol.getStr servername ip_list
        cached_cert with
    | (st, .ok v) => (st, .ok v)
    | (st, .error (.keyError k)) =>
      (st, .error (.illegalVPNProtocol (.keyError k)))
    | (st, .error (.templateNotFound n)) =>
      (st, .error (.templateNotFound n))
    | (st, .error e) => (capture_exception st e, .ok .none)

/-- `CertificateManager.delete_cached_certificate(filename)`:
`os.remove(filename)` with nothing caught. -/
def delete_cached_certificate (st : SysState) (filename : String) :
    SysState × Except PyExc Unit :=
  match st.fs.remove filename with
  | .ok fs => ({ st with fs := fs }, .ok ())
  | .error e => (st, .error e)

/-! Test fixtures: a fresh world and concrete template engines used by the
concrete evaluations below. -/

/-- A fresh world: empty filesystem, nothing recorded, no crash reports. -/
def st0 : SysState :=
  { fs := { dirs := [], files := [] }
    conn := { lastServerName := Option.none, lastProtocol := Option.none }
    crashReports := [] }

/-- An engine that finds every template and renders everything to the
fixed text "rendered". -/
def engineOk : TemplateEngine :=
  ⟨fun _ => .ok (fun _ => .ok "rendered")⟩

/-- An engine whose template lookup always fails with
`TemplateNotFound(name)`. -/
def engineMissing : TemplateEngine :=
  ⟨fun name => .error (.templateNotFound name)⟩

/-- An engine whose rendering always fails with an unclassified error. -/
def engineBoom : TemplateEngine :=
  ⟨fun _ => .ok (fun _ => .error (.other "boom"))⟩

/-- An engine whose rendering always fails with `KeyError("missing")`. -/
def engineKeyErr : TemplateEngine :=
  ⟨fun _ => .ok (fun _ => .error (.keyError "missing"))⟩

/-! Helper lemmas about the filesystem model and the dispatcher. -/

/-- Reading back a just-written file yields the written content. -/
theorem FileSystem.read_write (fs : FileSystem) (p c : String) :
    (fs.write p c).read p = some c := by
  simp [FileSystem.write, FileSystem.read, List.lookup]

/-- Looking up a key among the entries whose key differs from it finds
nothing. -/
theorem lookup_filter_ne (l : List (String × String)) (p : String) :
    (l.filter (fun kv => kv.1 ≠ p)).lookup p = Option.none := by
  induction l with
  | nil => rfl
  | cons kv l ih =>
    rcases kv with ⟨a, b⟩
    by_cases h : a = p
    · have hf : (decide ((a, b).1 ≠ p)) = false := by simp [h]
      rw [List.filter_cons, hf]
      exact ih
    · have hf : (decide ((a, b).1 ≠ p)) = true := by simp [h]
      rw [List.filter_cons, hf]
      have hbeq : (p == a) = false := by
        simp only [beq_eq_false_iff_ne, ne_eq]
        exact fun hpa => h hpa.symm
      simp only [List.lookup, hbeq]
      exact ih

/-- Writing a file leaves the directory set alone. -/
theorem FileSystem.dirs_write (fs : FileSystem) (p c : String) :
    (fs.write p c).dirs = fs.dirs := rfl

/-- No branch of the dispatcher or of the generators it selects touches
the recorded connection state. -/
theorem dispatch_conn (engine : TemplateEngine) (st : SysState)
    (protocol : String) (servername ip_list : PyVal)
    (cached_cert : String) :
    (dispatch engine st protocol servername ip_list cached_cert).1.conn
      = st.conn := by
  unfold dispatch generate_openvpn_cert generate_strongswan_cert
    generate_wireguard_cert
  repeat' split
  all_goals first
  | rfl
  | (simp only []; split <;> rfl)

/-- No branch of the dispatcher or of the generators it selects reports
to the crash sink. -/
theorem dispatch_crashReports (engine : TemplateEngine) (st : SysState)
    (protocol : String) (servername ip_list : PyVal)
    (cached_cert : String) :
    (dispatch engine st protocol servername ip_list
        cached_cert).1.crashReports = st.crashReports := by
  unfold dispatch generate_openvpn_cert generate_strongswan_cert
    generate_wireguard_cert
  repeat' split
  all_goals first
  | rfl
  | (simp only []; split <;> rfl)

/-- C1: for every protocol in {TCP, UDP}, every valid session, every
servername string, and every non-empty list of IPs, `generate_vpn_cert`
returns the cache path, and the file at that path contains exactly the
template rendered with the variables {openvpn_protocol: protocol,
serverlist: ip_list (order preserved), openvpn_ports: the one-element list
holding the port enum value for that protocol}. -/
theorem generate_vpn_cert_openvpn_returns_path_and_writes_render
    (engine : TemplateEngine) (st : SysState) (p sn cached_cert : String)
    (xs : List PyVal) (port : ProtocolPortEnum)
    (template : J2Values → Except PyExc String) (text : String)
    (hp : p = ProtocolEnum.TCP ∨ p = ProtocolEnum.UDP)
    (hxs : xs ≠ [])
    (hport : ports_lookup p = .ok port)
    (htemplate : engine.get_template OPENVPN_TEMPLATE = .ok template)
    (hrender : template
        { openvpn_protocol := p, serverlist := .list xs,
          openvpn_ports := [port] } = .ok text) :
    (generate_vpn_cert engine st (.str p) .session (.str sn) (.list xs)
        cached_cert).2 = .ok (.str cached_cert) ∧
    (generate_vpn_cert engine st (.str p) .session (.str sn) (.list xs)
        cached_cert).1.fs.read cached_cert = some text := by
  have hlen : xs.length ≠ 0 := by
    simpa [List.length_eq_zero] using hxs
  refine ⟨?_, ?_⟩ <;>
  · simp only [generate_vpn_cert, dispatch, generate_openvpn_cert,
      PyVal.isStr, PyVal.isSession, PyVal.isList, PyVal.listLen,
      PyVal.getStr, hlen, hp, hport, htemplate, hrender,
      Bool.not_true, not_true_eq_false, not_false_eq_true,
      if_true, if_false, ite_true, ite_false, or_true, true_or,
      eq_self_iff_true]
    all_goals (split <;> simp [FileSystem.read_write])

/-- Concrete run of the C1 theorem: protocol TCP, two server addresses. -/
theorem generate_vpn_cert_openvpn_witness :
    (generate_vpn_cert engineOk st0 (.str "tcp") .session (.str "node")
        (.list [.str "1.2.3.4", .str "5.6.7.8"]) "cert.ovpn").2
      = .ok (.str "cert.ovpn") ∧
    (generate_vpn_cert engineOk st0 (.str "tcp") .session (.str "node")
        (.list [.str "1.2.3.4", .str "5.6.7.8"]) "cert.ovpn").1.fs.read
        "cert.ovpn" = some "rendered" :=
  generate_vpn_cert_openvpn_returns_path_and_writes_render engineOk st0
    "tcp" "node" "cert.ovpn" [.str "1.2.3.4", .str "5.6.7.8"]
    ProtocolPortEnum.TCP (fun _ => .ok "rendered") "rendered"
    (Or.inl rfl) (by simp) rfl rfl rfl

/-- C2: `generate_vpn_cert` runs exactly five validation checks in source
order — protocol is a str, session is a Session, servername is a str,
ip_list is a list (each a TypeError), then ip_list non-empty (a
ValueError "No servers were provided") — the first failing check raises
immediately, and when any check fails the returned world equals the
initial one: nothing is recorded, dispatched, or written. -/
theorem generate_vpn_cert_validation_order_and_purity
    (engine : TemplateEngine) (st : SysState)
    (protocol session servername ip_list : PyVal) (cached_cert : String) :
    (protocol.isStr = false →
      generate_vpn_cert engine st protocol session servername ip_list
          cached_cert
        = (st, .error (.typeError (strTypeErrMsg protocol)))) ∧
    (protocol.isStr = true → session.isSession = false →
      generate_vpn_cert engine st protocol session servername ip_list
          cached_cert
        = (st, .error (.typeError (sessionTypeErrMsg protocol)))) ∧
    (protocol.isStr = true → session.isSession = true →
      servername.isStr = false →
      generate_vpn_cert engine st protocol session servername ip_list
          cached_cert
        = (st, .error (.typeError (strTypeErrMsg servername)))) ∧
    (protocol.isStr = true → session.isSession = true →
      servername.isStr = true → ip_list.isList = false →
      generate_vpn_cert engine st protocol session servername ip_list
          cached_cert
        = (st, .error (.typeError (listTypeErrMsg ip_list)))) ∧
    (protocol.isStr = true → session.isSession = true →
      servername.isStr = true → ip_list.isList = true →
      ip_list.listLen = 0 →
      generate_vpn_cert engine st protocol session servername ip_list
          cached_cert
        = (st, .error (.valueError "No servers were provided"))) := by
  refine ⟨?_, ?_, ?_, ?_, ?_⟩ <;>
    (intros; simp [generate_vpn_cert, *])

/-- Concrete runs of the C2 theorem: each of the five checks observed
failing first on its own input. -/
theorem generate_vpn_cert_validation_witness :
    (generate_vpn_cert engineOk st0 (.int 1) .session (.str "sv")
        (.list [.str "ip"]) "p"
      = (st0, .error (.typeError (strTypeErrMsg (.int 1))))) ∧
    (generate_vpn_cert engineOk st0 (.str "tcp") .none (.str "sv")
        (.list [.str "ip"]) "p"
      = (st0, .error (.typeError (sessionTypeErrMsg (.str "tcp"))))) ∧
    (generate_vpn_cert engineOk st0 (.str "tcp") .session (.int 2)
        (.list [.str "ip"]) "p"
      = (st0, .error (.typeError (strTypeErrMsg (.int 2))))) ∧
    (generate_vpn_cert engineOk st0 (.str "tcp") .session (.str "sv")
        (.str "not-a-list") "p"
      = (st0, .error (.typeError (listTypeErrMsg (.str "not-a-list"))))) ∧
    (generate_vpn_cert engineOk st0 (.str "tcp") .session (.str "sv")
        (.list []) "p"
      = (st0, .error (.valueError "No servers were provided"))) :=
  ⟨(generate_vpn_cert_validation_order_and_purity engineOk st0 (.int 1)
      .session (.str "sv") (.list [.str "ip"]) "p").1 rfl,
   (generate_vpn_cert_validation_order_and_purity engineOk st0 (.str "tcp")
      .none (.str "sv") (.list [.str "ip"]) "p").2.1 rfl rfl,
   (generate_vpn_cert_validation_order_and_purity engineOk st0 (.str "tcp")
      .session (.int 2) (.list [.str "ip"]) "p").2.2.1 rfl rfl rfl,
   (generate_vpn_cert_validation_order_and_purity engineOk st0 (.str "tcp")
      .session (.str "sv") (.str "not-a-list") "p").2.2.2.1 rfl rfl rfl rfl,
   (generate_vpn_cert_validation_order_and_purity engineOk st0 (.str "tcp")
      .session (.str "sv") (.list []) "p").2.2.2.2 rfl rfl rfl rfl rfl⟩

/-- C3: with well-typed inputs and a non-empty ip list but a protocol
string outside {TCP, UDP, IKEV2, WIREGUARD}, `generate_vpn_cert` fails
with `IllegalVPNProtocol` wrapping the dispatch-table `KeyError`. -/
theorem generate_vpn_cert_unsupported_protocol
    (engine : TemplateEngine) (st : SysState) (p sn cached_cert : String)
    (xs : List PyVal)
    (hxs : xs ≠ [])
    (h1 : p ≠ ProtocolEnum.TCP) (h2 : p ≠ ProtocolEnum.UDP)
    (h3 : p ≠ ProtocolEnum.IKEV2) (h4 : p ≠ ProtocolEnum.WIREGUARD) :
    (generate_vpn_cert engine st (.str p) .session (.str sn) (.list xs)
        cached_cert).2
      = .error (.illegalVPNProtocol (.keyError p)) := by
  have hlen : xs.length ≠ 0 := by
    simpa [List.length_eq_zero] using hxs
  simp [generate_vpn_cert, dispatch, PyVal.isStr, PyVal.isSession,
    PyVal.isList, PyVal.listLen, PyVal.getStr, hlen, h1, h2, h3, h4]

/-- Concrete run of the C3 theorem: the well-typed but unsupported
protocol string "sstp". -/
theorem generate_vpn_cert_unsupported_protocol_witness :
    (generate_vpn_cert engineOk st0 (.str "sstp") .session (.str "node")
        (.list [.str "1.2.3.4"]) "cert.ovpn").2
      = .error (.illegalVPNProtocol (.keyError "sstp")) :=
  generate_vpn_cert_unsupported_protocol engineOk st0 "sstp" "node"
    "cert.ovpn" [.str "1.2.3.4"] (by simp) (by decide) (by decide)
    (by decide) (by decide)

/-- C4: for protocol IKEV2 or WIREGUARD with inputs passing validation,
`generate_vpn_cert` returns boolean true for every servername, ip list,
cache path and template engine, and the world changes only by the state
recording: no file is written and nothing is rendered or reported. -/
theorem generate_vpn_cert_stub_protocols_return_true
    (engine : TemplateEngine) (st : SysState) (p sn cached_cert : String)
    (xs : List PyVal)
    (hxs : xs ≠ [])
    (hp : p = ProtocolEnum.IKEV2 ∨ p = ProtocolEnum.WIREGUARD) :
    generate_vpn_cert engine st (.str p) .session (.str sn) (.list xs)
        cached_cert
      = (save_protocol (save_servername st sn) p, .ok (.bool true)) := by
  have hlen : xs.length ≠ 0 := by
    simpa [List.length_eq_zero] using hxs
  have d1 : ProtocolEnum.IKEV2 ≠ ProtocolEnum.TCP := by decide
  have d2 : ProtocolEnum.IKEV2 ≠ ProtocolEnum.UDP := by decide
  have d3 : ProtocolEnum.WIREGUARD ≠ ProtocolEnum.TCP := by decide
  have d4 : ProtocolEnum.WIREGUARD ≠ ProtocolEnum.UDP := by decide
  have d5 : ProtocolEnum.WIREGUARD ≠ ProtocolEnum.IKEV2 := by decide
  rcases hp with rfl | rfl <;>
    simp [generate_vpn_cert, dispatch, generate_strongswan_cert,
      generate_wireguard_cert, PyVal.isStr, PyVal.isSession, PyVal.isList,
      PyVal.listLen, PyVal.getStr, hlen, d1, d2, d3, d4, d5]

/-- Concrete run of the C4 theorem: the WIREGUARD stub on a fresh world
returns `True` and leaves the filesystem empty. -/
theorem generate_vpn_cert_stub_protocols_witness :
    generate_vpn_cert engineOk st0 (.str "wireguard") .session
        (.str "node") (.list [.str "1.2.3.4"]) "cert.ovpn"
      = (save_protocol (save_servername st0 "node") "wireguard",
         .ok (.bool true)) :=
  generate_vpn_cert_stub_protocols_return_true engineOk st0 "wireguard"
    "node" "cert.ovpn" [.str "1.2.3.4"] (by simp) (Or.inr rfl)

/-- C5: when the template engine fails the template lookup with
`TemplateNotFound` during dispatch, `generate_vpn_cert` fails with the
same `TemplateNotFound` value, unchanged. -/
theorem generate_vpn_cert_template_not_found_propagates
    (engine : TemplateEngine) (st : SysState) (p sn cached_cert : String)
    (xs : List PyVal) (name : String)
    (hp : p = ProtocolEnum.TCP ∨ p = ProtocolEnum.UDP)
    (hxs : xs ≠ [])
    (htemplate : engine.get_template OPENVPN_TEMPLATE
      = .error (.templateNotFound name)) :
    (generate_vpn_cert engine st (.str p) .session (.str sn) (.list xs)
        cached_cert).2
      = .error (.templateNotFound name) := by
  have hlen : xs.length ≠ 0 := by
    simpa [List.length_eq_zero] using hxs
  have d1 : ProtocolEnum.UDP ≠ ProtocolEnum.TCP := by decide
  rcases hp with rfl | rfl <;>
    simp [generate_vpn_cert, dispatch, generate_openvpn_cert,
      ports_lookup, PyVal.isStr, PyVal.isSession, PyVal.isList,
      PyVal.listLen, PyVal.getStr, hlen, d1, htemplate]

/-- Concrete run of the C5 theorem: an engine that cannot locate any
template makes the call fail with `TemplateNotFound` for the OpenVPN
template name. -/
theorem generate_vpn_cert_template_not_found_witness :
    (generate_vpn_cert engineMissing st0 (.str "tcp") .session
        (.str "node") (.list [.str "1.2.3.4"]) "cert.ovpn").2
      = .error (.templateNotFound OPENVPN_TEMPLATE) :=
  generate_vpn_cert_template_not_found_propagates engineMissing st0 "tcp"
    "node" "cert.ovpn" [.str "1.2.3.4"] OPENVPN_TEMPLATE (Or.inl rfl)
    (by simp) rfl

/-- C6: a dispatch-time failure that is neither the dispatch-table
`KeyError` nor `TemplateNotFound` is handed to the crash-report sink, and
the call raises nothing further and returns `None`. -/
theorem generate_vpn_cert_unexpected_error_swallowed
    (engine : TemplateEngine) (st : SysState) (p sn cached_cert : String)
    (xs : List PyVal) (port : ProtocolPortEnum)
    (template : J2Values → Except PyExc String) (e : PyExc)
    (hp : p = ProtocolEnum.TCP ∨ p = ProtocolEnum.UDP)
    (hxs : xs ≠ [])
    (hport : ports_lookup p = .ok port)
    (htemplate : engine.get_template OPENVPN_TEMPLATE = .ok template)
    (hrender : template
        { openvpn_protocol := p, serverlist := .list xs,
          openvpn_ports := [port] } = .error e)
    (hk : e.isKeyError = false)
    (ht : e.isTemplateNotFound = false) :
    (generate_vpn_cert engine st (.str p) .session (.str sn) (.list xs)
        cached_cert).2 = .ok .none ∧
    (generate_vpn_cert engine st (.str p) .session (.str sn) (.list xs)
        cached_cert).1.crashReports = e :: st.crashReports := by
  have hlen : xs.length ≠ 0 := by
    simpa [List.length_eq_zero] using hxs
  refine ⟨?_, ?_⟩ <;>
  · cases e <;>
      simp_all [generate_vpn_cert, dispatch, generate_openvpn_cert,
        capture_exception, PyVal.isStr, PyVal.isSession, PyVal.isList,
        PyVal.listLen, PyVal.getStr, PyExc.isKeyError,
        PyExc.isTemplateNotFound]
    all_goals (split <;> rfl)

/-- Concrete run of the C6 theorem: a render failure with an unclassified
error is reported to the sink and the call returns `None`. -/
theorem generate_vpn_cert_unexpected_error_witness :
    (generate_vpn_cert engineBoom st0 (.str "udp") .session (.str "node")
        (.list [.str "1.2.3.4"]) "cert.ovpn").2 = .ok .none ∧
    (generate_vpn_cert engineBoom st0 (.str "udp") .session (.str "node")
        (.list [.str "1.2.3.4"]) "cert.ovpn").1.crashReports
      = [.other "boom"] :=
  generate_vpn_cert_unexpected_error_swallowed engineBoom st0 "udp" "node"
    "cert.ovpn" [.str "1.2.3.4"] ProtocolPortEnum.UDP
    (fun _ => .error (.other "boom")) (.other "boom") (Or.inr rfl)
    (by simp) rfl rfl rfl rfl rfl

/-- C7: on every call whose five validation checks pass, the servername
and the protocol are recorded into the connection state before dispatch,
for every template engine and hence for every dispatch outcome —
including a failing dispatch. -/
theorem generate_vpn_cert_records_state_unconditionally
    (engine : TemplateEngine) (st : SysState) (p sn cached_cert : String)
    (xs : List PyVal)
    (hxs : xs ≠ []) :
    (generate_vpn_cert engine st (.str p) .session (.str sn) (.list xs)
        cached_cert).1.conn
      = { lastServerName := some sn, lastProtocol := some p } := by
  have hlen : xs.length ≠ 0 := by
    simpa [List.length_eq_zero] using hxs
  unfold generate_vpn_cert
  simp only [PyVal.isStr, PyVal.isSession, PyVal.isList, PyVal.listLen,
    PyVal.getStr, hlen, Bool.not_true, not_true_eq_false,
    not_false_eq_true, if_true, if_false, ite_true, ite_false]
  rcases hd : dispatch engine (save_protocol (save_servername st sn) p) p
      (.str sn) (.list xs) cached_cert with ⟨st2, r⟩
  have hconn := dispatch_conn engine
    (save_protocol (save_servername st sn) p) p (.str sn) (.list xs)
    cached_cert
  rw [hd] at hconn
  cases r with
  | ok v => simpa [save_servername, save_protocol] using hconn
  | error e =>
    cases e <;>
      simpa [capture_exception, save_servername, save_protocol] using hconn

/-- Concrete run of the C7 theorem: recording happens even though the
protocol "sstp" then fails dispatch with `IllegalVPNProtocol`. -/
theorem generate_vpn_cert_records_state_witness :
    (generate_vpn_cert engineOk st0 (.str "sstp") .session (.str "node")
        (.list [.str "1.2.3.4"]) "cert.ovpn").1.conn
      = { lastServerName := some "node", lastProtocol := some "sstp" } :=
  generate_vpn_cert_records_state_unconditionally engineOk st0 "sstp"
    "node" "cert.ovpn" [.str "1.2.3.4"] (by simp)

/-- C8: `delete_cached_certificate` attempts removal with no prior
existence check: on a missing path it fails with the filesystem error and
leaves the world unchanged, and after a successful call the file no
longer exists. -/
theorem delete_cached_certificate_removes_or_fails
    (st : SysState) (path : String) :
    (st.fs.isfile path = false →
      delete_cached_certificate st path
        = (st, .error (.filesystemError
            ("No such file or directory: " ++ path)))) ∧
    (st.fs.isfile path = true →
      (delete_cached_certificate st path).2 = .ok () ∧
      (delete_cached_certificate st path).1.fs.isfile path = false) := by
  constructor
  · intro h
    simp [delete_cached_certificate, FileSystem.remove, h]
  · intro h
    have hrun : delete_cached_certificate st path
        = (SysState.mk
            (FileSystem.mk st.fs.dirs
              (st.fs.files.filter (fun kv => kv.1 ≠ path)))
            st.conn st.crashReports,
           .ok ()) := by
      unfold delete_cached_certificate FileSystem.remove
      rw [if_pos h]
    refine ⟨?_, ?_⟩
    · rw [hrun]
    · rw [hrun]
      dsimp only [FileSystem.isfile]
      rw [lookup_filter_ne]
      rfl

/-- A world holding one cached certificate file. -/
def stWithCert : SysState :=
  { st0 with fs := { dirs := [], files := [("cert.ovpn", "content")] } }

/-- Concrete runs of the C8 theorem: deletion fails on the empty world
and succeeds on the world holding the file, after which the file is
gone. -/
theorem delete_cached_certificate_witness :
    (delete_cached_certificate st0 "cert.ovpn"
      = (st0, .error (.filesystemError
          ("No such file or directory: " ++ "cert.ovpn")))) ∧
    (delete_cached_certificate stWithCert "cert.ovpn").2 = .ok () ∧
    (delete_cached_certificate stWithCert "cert.ovpn").1.fs.isfile
      "cert.ovpn" = false :=
  ⟨(delete_cached_certificate_removes_or_fails st0 "cert.ovpn").1 rfl,
   (delete_cached_certificate_removes_or_fails stWithCert "cert.ovpn").2
     rfl⟩

/-- C9: the OpenVPN generator ensures the cache directory exists before
writing — after a run past the template fetch the directory is present,
and when it was already present the directory set is left exactly as it
was (idempotent, no error). -/
theorem generate_openvpn_cert_ensures_cache_dir
    (engine : TemplateEngine) (st : SysState) (sn il : PyVal)
    (cached_cert p : String) (port : ProtocolPortEnum)
    (template : J2Values → Except PyExc String)
    (hport : ports_lookup p = .ok port)
    (htemplate : engine.get_template OPENVPN_TEMPLATE = .ok template) :
    (generate_openvpn_cert engine st sn il cached_cert p).1.fs.isdir
        PROTON_XDG_CACHE_HOME = true ∧
    (st.fs.isdir PROTON_XDG_CACHE_HOME = true →
      (generate_openvpn_cert engine st sn il cached_cert p).1.fs.dirs
        = st.fs.dirs) := by
  constructor
  · by_cases h : st.fs.isdir PROTON_XDG_CACHE_HOME = true <;>
    · simp only [generate_openvpn_cert, hport, htemplate, h]
      all_goals (split <;>
        simp_all [FileSystem.write, FileSystem.isdir, FileSystem.mkdir])
  · intro h
    simp only [generate_openvpn_cert, hport, htemplate, h]
    all_goals (split <;> simp [FileSystem.write])

/-- A world where the cache directory already exists. -/
def stWithCacheDir : SysState :=
  { st0 with fs := { dirs := [PROTON_XDG_CACHE_HOME], files := [] } }

/-- Concrete runs of the C9 theorem: the directory is created on the
fresh world and left untouched on the world that already has it. -/
theorem generate_openvpn_cert_cache_dir_witness :
    (generate_openvpn_cert engineOk st0 (.str "node")
        (.list [.str "1.2.3.4"]) "cert.ovpn" "tcp").1.fs.isdir
        PROTON_XDG_CACHE_HOME = true ∧
    (generate_openvpn_cert engineOk stWithCacheDir (.str "node")
        (.list [.str "1.2.3.4"]) "cert.ovpn" "tcp").1.fs.dirs
      = stWithCacheDir.fs.dirs :=
  ⟨(generate_openvpn_cert_ensures_cache_dir engineOk st0 (.str "node")
      (.list [.str "1.2.3.4"]) "cert.ovpn" "tcp" ProtocolPortEnum.TCP
      (fun _ => .ok "rendered") rfl rfl).1,
   (generate_openvpn_cert_ensures_cache_dir engineOk stWithCacheDir
      (.str "node") (.list [.str "1.2.3.4"]) "cert.ovpn" "tcp"
      ProtocolPortEnum.TCP (fun _ => .ok "rendered") rfl rfl).2 rfl⟩

/-- C10: the dispatcher's `KeyError` handler is scoped over the entire
strategy invocation, so a `KeyError` raised from inside the selected
generator — here from rendering — is re-raised as `IllegalVPNProtocol`
wrapping it, and nothing reaches the crash-report sink. -/
theorem generate_vpn_cert_generator_keyerror_maps_to_illegal_protocol
    (engine : TemplateEngine) (st : SysState) (p sn cached_cert : String)
    (xs : List PyVal) (port : ProtocolPortEnum)
    (template : J2Values → Except PyExc String) (k : String)
    (hp : p = ProtocolEnum.TCP ∨ p = ProtocolEnum.UDP)
    (hxs : xs ≠ [])
    (hport : ports_lookup p = .ok port)
    (htemplate : engine.get_template OPENVPN_TEMPLATE = .ok template)
    (hrender : template
        { openvpn_protocol := p, serverlist := .list xs,
          openvpn_ports := [port] } = .error (.keyError k)) :
    (generate_vpn_cert engine st (.str p) .session (.str sn) (.list xs)
        cached_cert).2
      = .error (.illegalVPNProtocol (.keyError k)) ∧
    (generate_vpn_cert engine st (.str p) .session (.str sn) (.list xs)
        cached_cert).1.crashReports = st.crashReports := by
  have hlen : xs.length ≠ 0 := by
    simpa [List.length_eq_zero] using hxs
  refine ⟨?_, ?_⟩ <;>
  · simp_all [generate_vpn_cert, dispatch, generate_openvpn_cert,
      PyVal.isStr, PyVal.isSession, PyVal.isList, PyVal.listLen,
      PyVal.getStr]
    all_goals (split <;> rfl)

/-- Concrete run of the C10 theorem: a rendering `KeyError` surfaces as
`IllegalVPNProtocol`, with the crash sink untouched. -/
theorem generate_vpn_cert_generator_keyerror_witness :
    (generate_vpn_cert engineKeyErr st0 (.str "tcp") .session
        (.str "node") (.list [.str "1.2.3.4"]) "cert.ovpn").2
      = .error (.illegalVPNProtocol (.keyError "missing")) ∧
    (generate_vpn_cert engineKeyErr st0 (.str "tcp") .session
        (.str "node") (.list [.str "1.2.3.4"]) "cert.ovpn").1.crashReports
      = [] :=
  generate_vpn_cert_generator_keyerror_maps_to_illegal_protocol
    engineKeyErr st0 "tcp" "node" "cert.ovpn" [.str "1.2.3.4"]
    ProtocolPortEnum.TCP (fun _ => .error (.keyError "missing")) "missing"
    (Or.inl rfl) (by simp) rfl rfl rfl

end CertManager
